import Mathlib

/-!
Verification of the ESP32 e-ink Spectra6 display driver
(`EPD_13in3e` driver unit and the `esp32-eink-spectra6-display.ino` sketch).

The driver is embedded as trace-producing functions: every call to
`DEV_Digital_Write`, `DEV_SPI_WriteByte` / `DEV_SPI_Write_nByte` and
`DEV_Delay_ms` is recorded as one `Event`.  Serial/printf logging and
watchdog resets produce no externally visible transport activity and are
not recorded.  Buffers handed to the driver are `List Nat` of byte values;
a C pointer that may be NULL is `Option (List Nat)`.

The blocking busy poll `EPD_13IN3E_ReadBusyH` appears in command traces as
the single abstract event `Event.busyWait` (marking the completed wait);
its internal unbounded polling loop is modelled separately and faithfully
by the fueled function `readBusyHFrom` below.
-/

/-- GPIO pins written by the driver (`DEV_Config.h` pin map):
Master chip-select (GPIO33), Slave chip-select (GPIO15),
reset (GPIO32), optional power enable (GPIO21). -/
inductive Pin where
  | CSM
  | CSS
  | RST
  | PWR
deriving DecidableEq, Repr

/-- One observable transport action of the driver. -/
inductive Event where
  /-- Source `DEV_Digital_Write(pin, v)` with `v` the written level (0 or 1). -/
  | digitalWrite (p : Pin) (v : Nat)
  /-- One byte clocked out on SPI (`DEV_SPI_WriteByte` / `DEV_SPI_Write_nByte`). -/
  | spiByte (b : Nat)
  /-- Source `DEV_Delay_ms(ms)`. -/
  | delayMs (ms : Nat)
  /-- Completion of the blocking busy wait `EPD_13IN3E_ReadBusyH`. -/
  | busyWait
deriving DecidableEq, Repr

/-! ## Constants from `EPD_13in3e.h` -/

def EPD_13IN3E_WIDTH : Nat := 1200
def EPD_13IN3E_HEIGHT : Nat := 1600

def EPD_13IN3E_BLACK : Nat := 0x0
def EPD_13IN3E_WHITE : Nat := 0x1
def EPD_13IN3E_YELLOW : Nat := 0x2
def EPD_13IN3E_RED : Nat := 0x3
def EPD_13IN3E_BLUE : Nat := 0x5
def EPD_13IN3E_GREEN : Nat := 0x6

def PSR : Nat := 0x00
def PWR_epd : Nat := 0x01
def POF : Nat := 0x02
def PON : Nat := 0x04
def BTST_N : Nat := 0x05
def BTST_P : Nat := 0x06
def DTM : Nat := 0x10
def DRF : Nat := 0x12
def CDI : Nat := 0x50
def TCON : Nat := 0x60
def TRES : Nat := 0x61
def AN_TM : Nat := 0x74
def AGID : Nat := 0x86
def BUCK_BOOST_VDDN : Nat := 0xB0
def TFT_VCOM_POWER : Nat := 0xB1
def EN_BUF : Nat := 0xB6
def BOOST_VDDP_EN : Nat := 0xB7
def CCSET : Nat := 0xE0
def PWS : Nat := 0xE3
def CMD66 : Nat := 0xF0

/-! ## Command parameter tables from `EPD_13in3e` (driver unit) -/

def PSR_V : List Nat := [0xDF, 0x69]
def PWR_V : List Nat := [0x0F, 0x00, 0x28, 0x2C, 0x28, 0x38]
def POF_V : List Nat := [0x00]
def DRF_V : List Nat := [0x00]
def CDI_V : List Nat := [0xF7]
def TCON_V : List Nat := [0x03, 0x03]
def TRES_V : List Nat := [0x04, 0xB0, 0x06, 0x40]
def CMD66_V : List Nat := [0x49, 0x55, 0x13, 0x5D, 0x05, 0x10]
def EN_BUF_V : List Nat := [0x07]
def CCSET_V : List Nat := [0x01]
def PWS_V : List Nat := [0x22]
def AN_TM_V : List Nat := [0xC0, 0x1C, 0x1C, 0xCC, 0xCC, 0xCC, 0x15, 0x15, 0x55]
def AGID_V : List Nat := [0x10]
def BTST_P_V : List Nat := [0xE8, 0x28]
def BOOST_VDDP_EN_V : List Nat := [0x01]
def BTST_N_V : List Nat := [0xE8, 0x28]
def BUCK_BOOST_VDDN_V : List Nat := [0x01]
def TFT_VCOM_POWER_V : List Nat := [0x02]

/-! ## Low-level transport (`DEV_Config`) -/

/-- Source `DEV_SPI_WriteByte(data)`: one SPI byte. -/
def DEV_SPI_WriteByte (data : Nat) : List Event :=
  [Event.spiByte data]

/-- Source `DEV_SPI_Write_nByte(data, len)`: clocks out `len` bytes starting at the
given pointer; the caller guarantees the buffer holds at least `len` bytes. -/
def DEV_SPI_Write_nByte (data : List Nat) (len : Nat) : List Event :=
  (data.take len).map Event.spiByte

/-! ## Driver helper functions (`EPD_13in3e` driver unit) -/

/-- Source `EPD_13IN3E_CS_ALL(Value)`: writes `Value` to both chip-select pins
(Master first, then Slave). -/
def EPD_13IN3E_CS_ALL (value : Nat) : List Event :=
  [Event.digitalWrite Pin.CSM value, Event.digitalWrite Pin.CSS value]

/-- Source `EPD_13IN3E_SPI_Sand(Cmd, buf, Len)`: a command byte followed by its
parameter bytes (driver always passes `Len = sizeof buf`). -/
def EPD_13IN3E_SPI_Sand (cmd : Nat) (buf : List Nat) : List Event :=
  DEV_SPI_WriteByte cmd ++ DEV_SPI_Write_nByte buf buf.length

/-- Source `EPD_13IN3E_Reset()`: the double reset pulse sequence on the RST line. -/
def EPD_13IN3E_Reset : List Event :=
  [Event.digitalWrite Pin.RST 1, Event.delayMs 30,
   Event.digitalWrite Pin.RST 0, Event.delayMs 30,
   Event.digitalWrite Pin.RST 1, Event.delayMs 30,
   Event.digitalWrite Pin.RST 0, Event.delayMs 30,
   Event.digitalWrite Pin.RST 1, Event.delayMs 30]

/-- Source `EPD_13IN3E_SendCommand(Reg)`. -/
def EPD_13IN3E_SendCommand (reg : Nat) : List Event :=
  DEV_SPI_WriteByte reg

/-- Source `EPD_13IN3E_SendData(Reg)`. -/
def EPD_13IN3E_SendData (reg : Nat) : List Event :=
  DEV_SPI_WriteByte reg

/-- Source `EPD_13IN3E_SendData2(buf, Len)`: NULL or zero-length guarded bulk send. -/
def EPD_13IN3E_SendData2 (buf : Option (List Nat)) (len : Nat) : List Event :=
  match buf with
  | none => []
  | some b => if len = 0 then [] else DEV_SPI_Write_nByte b len

/-- Source `EPD_13IN3E_ReadBusyH()` as it appears in a command trace: the completed
blocking wait (polling loop modelled by `readBusyHFrom`). -/
def EPD_13IN3E_ReadBusyH : List Event :=
  [Event.busyWait]

/-- Source `EPD_13IN3E_TurnOnDisplay()`: PON to both controllers, busy wait, 50 ms
settle, DRF with its 1-byte parameter, busy wait, POF with its 1-byte
parameter and no busy wait afterwards. -/
def EPD_13IN3E_TurnOnDisplay : List Event :=
  EPD_13IN3E_CS_ALL 0 ++ EPD_13IN3E_SendCommand 0x04 ++ EPD_13IN3E_CS_ALL 1 ++
  EPD_13IN3E_ReadBusyH ++
  [Event.delayMs 50] ++
  EPD_13IN3E_CS_ALL 0 ++ EPD_13IN3E_SPI_Sand DRF DRF_V ++ EPD_13IN3E_CS_ALL 1 ++
  EPD_13IN3E_ReadBusyH ++
  EPD_13IN3E_CS_ALL 0 ++ EPD_13IN3E_SPI_Sand POF POF_V ++ EPD_13IN3E_CS_ALL 1

/-- Source `EPD_13IN3E_RefreshNow()` delegates to `EPD_13IN3E_TurnOnDisplay()`. -/
def EPD_13IN3E_RefreshNow : List Event :=
  EPD_13IN3E_TurnOnDisplay

/-- C1: every call to `RefreshNow` emits exactly this transport trace:
PON (0x04) with both chip-selects asserted (driven low) and no parameter
bytes, a busy wait, a 50 ms delay, DRF (0x12) with exactly one parameter
byte 0x00, a second busy wait, then POF (0x02) with exactly one parameter
byte 0x00 and no busy wait after it; in particular the trace holds exactly
two busy waits, both before the POF opcode. -/
theorem c1_refreshNow_trace :
    EPD_13IN3E_RefreshNow =
      [Event.digitalWrite Pin.CSM 0, Event.digitalWrite Pin.CSS 0,
       Event.spiByte 0x04,
       Event.digitalWrite Pin.CSM 1, Event.digitalWrite Pin.CSS 1,
       Event.busyWait,
       Event.delayMs 50,
       Event.digitalWrite Pin.CSM 0, Event.digitalWrite Pin.CSS 0,
       Event.spiByte 0x12, Event.spiByte 0x00,
       Event.digitalWrite Pin.CSM 1, Event.digitalWrite Pin.CSS 1,
       Event.busyWait,
       Event.digitalWrite Pin.CSM 0, Event.digitalWrite Pin.CSS 0,
       Event.spiByte 0x02, Event.spiByte 0x00,
       Event.digitalWrite Pin.CSM 1, Event.digitalWrite Pin.CSS 1] ∧
    (EPD_13IN3E_RefreshNow.filter (fun e => e = Event.busyWait)).length = 2 ∧
    ∀ e ∈ EPD_13IN3E_RefreshNow.drop 14, e ≠ Event.busyWait := by
  refine ⟨by decide, by decide, by decide⟩

/-- C3: the `Reset` trace drives the reset line high exactly 3 times and
low exactly 2 times, alternating high, low, high, low, high, with a 30 ms
delay after every one of the five transitions. -/
theorem c3_reset_trace :
    EPD_13IN3E_Reset =
      [Event.digitalWrite Pin.RST 1, Event.delayMs 30,
       Event.digitalWrite Pin.RST 0, Event.delayMs 30,
       Event.digitalWrite Pin.RST 1, Event.delayMs 30,
       Event.digitalWrite Pin.RST 0, Event.delayMs 30,
       Event.digitalWrite Pin.RST 1, Event.delayMs 30] ∧
    (EPD_13IN3E_Reset.filter (fun e => e = Event.digitalWrite Pin.RST 1)).length = 3 ∧
    (EPD_13IN3E_Reset.filter (fun e => e = Event.digitalWrite Pin.RST 0)).length = 2 := by
  refine ⟨by decide, by decide, by decide⟩

/-! ## Initialization sequence (`EPD_13IN3E_Init`) -/

/-- Source `EPD_13IN3E_Init()`: reset, then the configuration command sequence.
`AN_TM` and the power/booster block select only the Master chip-select
(`DEV_Digital_Write(EPD_CS_M_PIN, 0)`); the middle block (`CMD66` through
`TRES`) selects both controllers via `EPD_13IN3E_CS_ALL(0)`. -/
def EPD_13IN3E_Init : List Event :=
  EPD_13IN3E_Reset ++
  [Event.digitalWrite Pin.CSM 0] ++ EPD_13IN3E_SPI_Sand AN_TM AN_TM_V ++ EPD_13IN3E_CS_ALL 1 ++
  EPD_13IN3E_CS_ALL 0 ++ EPD_13IN3E_SPI_Sand CMD66 CMD66_V ++ EPD_13IN3E_CS_ALL 1 ++
  EPD_13IN3E_CS_ALL 0 ++ EPD_13IN3E_SPI_Sand PSR PSR_V ++ EPD_13IN3E_CS_ALL 1 ++
  EPD_13IN3E_CS_ALL 0 ++ EPD_13IN3E_SPI_Sand CDI CDI_V ++ EPD_13IN3E_CS_ALL 1 ++
  EPD_13IN3E_CS_ALL 0 ++ EPD_13IN3E_SPI_Sand TCON TCON_V ++ EPD_13IN3E_CS_ALL 1 ++
  EPD_13IN3E_CS_ALL 0 ++ EPD_13IN3E_SPI_Sand AGID AGID_V ++ EPD_13IN3E_CS_ALL 1 ++
  EPD_13IN3E_CS_ALL 0 ++ EPD_13IN3E_SPI_Sand PWS PWS_V ++ EPD_13IN3E_CS_ALL 1 ++
  EPD_13IN3E_CS_ALL 0 ++ EPD_13IN3E_SPI_Sand CCSET CCSET_V ++ EPD_13IN3E_CS_ALL 1 ++
  EPD_13IN3E_CS_ALL 0 ++ EPD_13IN3E_SPI_Sand TRES TRES_V ++ EPD_13IN3E_CS_ALL 1 ++
  [Event.digitalWrite Pin.CSM 0] ++ EPD_13IN3E_SPI_Sand PWR_epd PWR_V ++ EPD_13IN3E_CS_ALL 1 ++
  [Event.digitalWrite Pin.CSM 0] ++ EPD_13IN3E_SPI_Sand EN_BUF EN_BUF_V ++ EPD_13IN3E_CS_ALL 1 ++
  [Event.digitalWrite Pin.CSM 0] ++ EPD_13IN3E_SPI_Sand BTST_P BTST_P_V ++ EPD_13IN3E_CS_ALL 1 ++
  [Event.digitalWrite Pin.CSM 0] ++ EPD_13IN3E_SPI_Sand BOOST_VDDP_EN BOOST_VDDP_EN_V ++ EPD_13IN3E_CS_ALL 1 ++
  [Event.digitalWrite Pin.CSM 0] ++ EPD_13IN3E_SPI_Sand BTST_N BTST_N_V ++ EPD_13IN3E_CS_ALL 1 ++
  [Event.digitalWrite Pin.CSM 0] ++ EPD_13IN3E_SPI_Sand BUCK_BOOST_VDDN BUCK_BOOST_VDDN_V ++ EPD_13IN3E_CS_ALL 1 ++
  [Event.digitalWrite Pin.CSM 0] ++ EPD_13IN3E_SPI_Sand TFT_VCOM_POWER TFT_VCOM_POWER_V ++ EPD_13IN3E_CS_ALL 1

/-! ## Chip-select line state machine

The two chip-select outputs are level-holding GPIO lines: a
`digitalWrite` changes the stored level, every other event leaves it
unchanged.  A controller is selected (asserted) when its line is low (0).
`DEV_Module_Init` drives both lines high, so `⟨1, 1⟩` is the state in
which every public operation starts after module init. -/

structure CSLevels where
  m : Nat
  s : Nat
deriving DecidableEq, Repr

/-- Effect of one event on the chip-select levels. -/
def stepCS (c : CSLevels) : Event → CSLevels
  | Event.digitalWrite Pin.CSM v => ⟨v, c.s⟩
  | Event.digitalWrite Pin.CSS v => ⟨c.m, v⟩
  | _ => c

/-- All chip-select states traversed while a trace executes, the initial
state included. -/
def statesCS (c : CSLevels) : List Event → List CSLevels
  | [] => [c]
  | e :: es => c :: statesCS (stepCS c e) es

/-- Each event of a trace paired with the chip-select state in force while
it executes (the state after the event; an SPI byte leaves the levels
unchanged, so this is the level under which the byte is clocked out). -/
def annotateCS (c : CSLevels) : List Event → List (CSLevels × Event)
  | [] => []
  | e :: es => (stepCS c e, e) :: annotateCS (stepCS c e) es

/-- The chip-select state in force at each SPI byte of a trace, in order. -/
def csDuring (tr : List Event) : List CSLevels :=
  (annotateCS ⟨1, 1⟩ tr).filterMap fun p =>
    match p.2 with
    | Event.spiByte _ => some p.1
    | _ => none

/-! ## Streaming frame interface -/

/-- Source `EPD_13IN3E_BeginFrameM()`: select Master, send DTM (0x10). -/
def EPD_13IN3E_BeginFrameM : List Event :=
  [Event.digitalWrite Pin.CSM 0] ++ EPD_13IN3E_SendCommand 0x10

/-- Source `EPD_13IN3E_WriteLineM(p300)`: NULL-guarded, forwards `WIDTH/4` bytes. -/
def EPD_13IN3E_WriteLineM (p300 : Option (List Nat)) : List Event :=
  match p300 with
  | none => []
  | some b => EPD_13IN3E_SendData2 (some b) (EPD_13IN3E_WIDTH / 4)

/-- Source `EPD_13IN3E_EndFrameM()`. -/
def EPD_13IN3E_EndFrameM : List Event :=
  EPD_13IN3E_CS_ALL 1

/-- Source `EPD_13IN3E_BeginFrameS()`: deselect all controllers first, then select
only the Slave, then send DTM (0x10). -/
def EPD_13IN3E_BeginFrameS : List Event :=
  EPD_13IN3E_CS_ALL 1 ++
  [Event.digitalWrite Pin.CSS 0] ++ EPD_13IN3E_SendCommand 0x10

/-- Source `EPD_13IN3E_WriteLineS(p300)`: identical forwarding to the Slave. -/
def EPD_13IN3E_WriteLineS (p300 : Option (List Nat)) : List Event :=
  match p300 with
  | none => []
  | some b => EPD_13IN3E_SendData2 (some b) (EPD_13IN3E_WIDTH / 4)

/-- Source `EPD_13IN3E_EndFrameS()`. -/
def EPD_13IN3E_EndFrameS : List Event :=
  EPD_13IN3E_CS_ALL 1

/-- C2 counterexample: the generalised invariant of the claim is false on
the code: the public operation `RefreshNow` (likewise `Init` and `Clear`)
deliberately asserts both chip-selects at once through the broadcast
helper `EPD_13IN3E_CS_ALL(0)`, so the one-call sequence `[RefreshNow]`
already reaches a state with Master and Slave simultaneously asserted. -/
theorem c2_both_asserted_in_refreshNow :
    ∃ st ∈ statesCS ⟨1, 1⟩ EPD_13IN3E_RefreshNow, st.m = 0 ∧ st.s = 0 := by
  decide

/-- C2 (amended): `BeginFrameS` first drives both chip-select lines
deasserted and only then asserts the Slave chip-select; consequently,
started from an arbitrary prior chip-select state, every state reached
strictly after its first event keeps the Master line deasserted — the two
lines are never both asserted by `BeginFrameS` itself — and the call
completes with exactly the Slave selected. -/
theorem c2_beginFrameS_cs (c : CSLevels) :
    EPD_13IN3E_BeginFrameS =
      [Event.digitalWrite Pin.CSM 1, Event.digitalWrite Pin.CSS 1,
       Event.digitalWrite Pin.CSS 0, Event.spiByte 0x10] ∧
    statesCS c EPD_13IN3E_BeginFrameS =
      [c, ⟨1, c.s⟩, ⟨1, 1⟩, ⟨1, 0⟩, ⟨1, 0⟩] ∧
    ((statesCS c EPD_13IN3E_BeginFrameS).drop 1).all (fun st => st.m == 1) = true := by
  exact ⟨rfl, rfl, rfl⟩

/-- Witness for C2 (amended) at the concrete post-init state `⟨1, 1⟩`. -/
theorem c2_beginFrameS_cs_witness :
    statesCS ⟨1, 1⟩ EPD_13IN3E_BeginFrameS =
      [⟨1, 1⟩, ⟨1, 1⟩, ⟨1, 1⟩, ⟨1, 0⟩, ⟨1, 0⟩] :=
  (c2_beginFrameS_cs ⟨1, 1⟩).2.1

/-! ## Power management -/

/-- Source `EPD_13IN3E_Sleep()`: deep-sleep opcode 0x07 with magic parameter 0xA5
to both controllers, then a 100 ms settle delay. -/
def EPD_13IN3E_Sleep : List Event :=
  EPD_13IN3E_CS_ALL 0 ++ EPD_13IN3E_SendCommand 0x07 ++ EPD_13IN3E_SendData 0xA5 ++
  EPD_13IN3E_CS_ALL 1 ++ [Event.delayMs 100]

/-- Source `EPD_13IN3E_PowerOn()`: `EPD_PWR_PIN` is defined in `DEV_Config.h`, so
the power-enable line is driven high, followed by a 100 ms delay. -/
def EPD_13IN3E_PowerOn : List Event :=
  [Event.digitalWrite Pin.PWR 1, Event.delayMs 100]

/-- Source `EPD_13IN3E_PowerOff()`: unconditionally calls `Sleep()`, then (with
`EPD_PWR_PIN` defined) delays 100 ms and deasserts the power-enable line. -/
def EPD_13IN3E_PowerOff : List Event :=
  EPD_13IN3E_Sleep ++ [Event.delayMs 100, Event.digitalWrite Pin.PWR 0]

/-- C8: every call to `PowerOff` emits the deep-sleep opcode 0x07 followed
by the magic parameter byte 0xA5 with both chip-selects asserted, then
settle delays, and only then deasserts the power-enable line; the
power-enable line is deasserted exactly once, as the final event, and
never before the deep-sleep command has been sent. -/
theorem c8_powerOff_trace :
    EPD_13IN3E_PowerOff =
      [Event.digitalWrite Pin.CSM 0, Event.digitalWrite Pin.CSS 0,
       Event.spiByte 0x07, Event.spiByte 0xA5,
       Event.digitalWrite Pin.CSM 1, Event.digitalWrite Pin.CSS 1,
       Event.delayMs 100, Event.delayMs 100,
       Event.digitalWrite Pin.PWR 0] ∧
    (EPD_13IN3E_PowerOff.filter (fun e => e = Event.digitalWrite Pin.PWR 0)).length = 1 ∧
    (∀ e ∈ EPD_13IN3E_PowerOff.take 8, e ≠ Event.digitalWrite Pin.PWR 0) ∧
    (∃ p ∈ annotateCS ⟨1, 1⟩ EPD_13IN3E_PowerOff,
      p.2 = Event.spiByte 0x07 ∧ p.1 = ⟨0, 0⟩) := by
  refine ⟨by decide, by decide, by decide, by decide⟩

/-- C7 counterexample: the claim says `AN_TM` is transmitted via the
"Both" helper with both chip-selects asserted; in the code `Init` selects
only the Master before `AN_TM` (its command byte 0x74 is clocked out with
the Slave chip-select still deasserted, state `⟨0, 1⟩`). -/
theorem c7_an_tm_master_only :
    (∃ p ∈ annotateCS ⟨1, 1⟩ EPD_13IN3E_Init,
      p.2 = Event.spiByte AN_TM ∧ p.1 = ⟨0, 1⟩) ∧
    ¬ (∀ p ∈ annotateCS ⟨1, 1⟩ EPD_13IN3E_Init,
        p.2 = Event.spiByte AN_TM → p.1 = ⟨0, 0⟩) := by
  refine ⟨by decide, by decide⟩

/-- C7 (amended): in `Init`, the chip-select pattern over the 57 SPI bytes
is: the 10 bytes of `AN_TM` (command plus 9 parameters) go out with only
the Master asserted (`⟨0, 1⟩`); the 26 bytes of the shared-configuration
block `CMD66`, `PSR`, `CDI`, `TCON`, `AGID`, `PWS`, `CCSET`, `TRES` go out
with both controllers asserted (`⟨0, 0⟩`); the 21 bytes of the
power/booster block `PWR`, `EN_BUF`, `BTST_P`, `BOOST_VDDP_EN`, `BTST_N`,
`BUCK_BOOST_VDDN`, `TFT_VCOM_POWER` go out with only the Master asserted.
The unambiguous opcodes `AGID` (0x86) and `TRES` (0x61), which occur as no
data byte, are additionally pinned to the both-asserted state. -/
theorem c7_init_addressing :
    csDuring EPD_13IN3E_Init =
      List.replicate 10 ⟨0, 1⟩ ++ List.replicate 26 ⟨0, 0⟩ ++
        List.replicate 21 ⟨0, 1⟩ ∧
    (∀ p ∈ annotateCS ⟨1, 1⟩ EPD_13IN3E_Init,
      p.2 = Event.spiByte AGID → p.1 = ⟨0, 0⟩) ∧
    (∀ p ∈ annotateCS ⟨1, 1⟩ EPD_13IN3E_Init,
      p.2 = Event.spiByte TRES → p.1 = ⟨0, 0⟩) := by
  refine ⟨by decide, by decide, by decide⟩

/-! ## Clear -/

/-- Source `EPD_13IN3E_Clear(color)`: packs the 4-bit color code into one byte
(`(color<<4)|color`, stored into a `UBYTE`), fills a `Width/4`-byte line
buffer with it, streams that buffer `Height` times after a DTM (0x10)
command to the Master and then to the Slave, and finishes with
`EPD_13IN3E_TurnOnDisplay()`. -/
def EPD_13IN3E_Clear (color : Nat) : List Event :=
  let width : Nat :=
    if EPD_13IN3E_WIDTH % 2 = 0 then EPD_13IN3E_WIDTH / 2 else EPD_13IN3E_WIDTH / 2 + 1
  let height := EPD_13IN3E_HEIGHT
  let packed := ((color <<< 4) ||| color) % 256
  let line_size := width / 2
  let line_buffer := List.replicate line_size packed
  [Event.digitalWrite Pin.CSM 0] ++ EPD_13IN3E_SendCommand 0x10 ++
  (List.replicate height (EPD_13IN3E_SendData2 (some line_buffer) line_size)).flatten ++
  EPD_13IN3E_CS_ALL 1 ++
  [Event.digitalWrite Pin.CSS 0] ++ EPD_13IN3E_SendCommand 0x10 ++
  (List.replicate height (EPD_13IN3E_SendData2 (some line_buffer) line_size)).flatten ++
  EPD_13IN3E_CS_ALL 1 ++
  EPD_13IN3E_TurnOnDisplay

/-- Sending a full replicate line through `SendData2` forwards it verbatim. -/
theorem sendData2_replicate_line (b : Nat) :
    EPD_13IN3E_SendData2 (some (List.replicate 300 b)) 300 =
      (List.replicate 300 b).map Event.spiByte := by
  norm_num [EPD_13IN3E_SendData2, DEV_SPI_Write_nByte, List.take_replicate]

/-- Source `Clear` unfolded to its transport trace, packed byte still reduced
modulo 256 as the `UBYTE` store does. -/
theorem clear_unfold (c : Nat) :
    EPD_13IN3E_Clear c =
      [Event.digitalWrite Pin.CSM 0] ++ EPD_13IN3E_SendCommand 0x10 ++
      (List.replicate 1600
        (EPD_13IN3E_SendData2 (some (List.replicate 300 (((c <<< 4) ||| c) % 256))) 300)).flatten ++
      EPD_13IN3E_CS_ALL 1 ++
      [Event.digitalWrite Pin.CSS 0] ++ EPD_13IN3E_SendCommand 0x10 ++
      (List.replicate 1600
        (EPD_13IN3E_SendData2 (some (List.replicate 300 (((c <<< 4) ||| c) % 256))) 300)).flatten ++
      EPD_13IN3E_CS_ALL 1 ++
      EPD_13IN3E_TurnOnDisplay := rfl

/-- The repeated line stream of `Clear`, as plain SPI data bytes. -/
theorem clear_join_line (c : Nat) (hmod : ((c <<< 4) ||| c) % 256 = (c <<< 4) ||| c) :
    (List.replicate 1600
      (EPD_13IN3E_SendData2 (some (List.replicate 300 (((c <<< 4) ||| c) % 256))) 300)).flatten =
    (List.replicate 1600 ((List.replicate 300 ((c <<< 4) ||| c)).map Event.spiByte)).flatten := by
  rw [hmod]
  simp only [sendData2_replicate_line]

/-- Reassociation of the `Clear` trace skeleton around the two line streams. -/
theorem clear_assoc_form (J : List Event) :
    [Event.digitalWrite Pin.CSM 0] ++ EPD_13IN3E_SendCommand 0x10 ++ J ++
      EPD_13IN3E_CS_ALL 1 ++
      [Event.digitalWrite Pin.CSS 0] ++ EPD_13IN3E_SendCommand 0x10 ++ J ++
      EPD_13IN3E_CS_ALL 1 ++ EPD_13IN3E_TurnOnDisplay =
    [Event.digitalWrite Pin.CSM 0, Event.spiByte 0x10] ++ J ++
      [Event.digitalWrite Pin.CSM 1, Event.digitalWrite Pin.CSS 1] ++
      [Event.digitalWrite Pin.CSS 0, Event.spiByte 0x10] ++ J ++
      [Event.digitalWrite Pin.CSM 1, Event.digitalWrite Pin.CSS 1] ++
      EPD_13IN3E_RefreshNow := by
  simp only [EPD_13IN3E_CS_ALL, EPD_13IN3E_SendCommand, DEV_SPI_WriteByte,
    EPD_13IN3E_RefreshNow, List.append_assoc, List.cons_append, List.singleton_append,
    List.nil_append]

/-- C6: for every valid color code `c ∈ {0,1,2,3,5,6}`, `Clear c` streams to
each controller a write-RAM command (0x10) followed by 1600 repetitions of
a 300-byte line in which every byte equals `(c<<4)|c` (Master selected for
the first half, Slave for the second), then performs the full
`RefreshNow` sequence. -/
theorem c6_clear_trace (c : Nat)
    (h : c = 0 ∨ c = 1 ∨ c = 2 ∨ c = 3 ∨ c = 5 ∨ c = 6) :
    EPD_13IN3E_Clear c =
      [Event.digitalWrite Pin.CSM 0, Event.spiByte 0x10] ++
      (List.replicate 1600 ((List.replicate 300 ((c <<< 4) ||| c)).map Event.spiByte)).flatten ++
      [Event.digitalWrite Pin.CSM 1, Event.digitalWrite Pin.CSS 1] ++
      [Event.digitalWrite Pin.CSS 0, Event.spiByte 0x10] ++
      (List.replicate 1600 ((List.replicate 300 ((c <<< 4) ||| c)).map Event.spiByte)).flatten ++
      [Event.digitalWrite Pin.CSM 1, Event.digitalWrite Pin.CSS 1] ++
      EPD_13IN3E_RefreshNow := by
  have hlt : (c <<< 4) ||| c < 256 := by
    rcases h with rfl | rfl | rfl | rfl | rfl | rfl <;> decide
  have hmod : ((c <<< 4) ||| c) % 256 = (c <<< 4) ||| c := Nat.mod_eq_of_lt hlt
  rw [clear_unfold c, clear_join_line c hmod]
  exact clear_assoc_form _

/-- Witness for C6 at the concrete color code 3 (red). -/
theorem c6_clear_trace_witness :
    ((3 : Nat) = 0 ∨ (3 : Nat) = 1 ∨ (3 : Nat) = 2 ∨ (3 : Nat) = 3 ∨
      (3 : Nat) = 5 ∨ (3 : Nat) = 6) ∧
    EPD_13IN3E_Clear 3 =
      [Event.digitalWrite Pin.CSM 0, Event.spiByte 0x10] ++
      (List.replicate 1600 ((List.replicate 300 (((3 : Nat) <<< 4) ||| 3)).map Event.spiByte)).flatten ++
      [Event.digitalWrite Pin.CSM 1, Event.digitalWrite Pin.CSS 1] ++
      [Event.digitalWrite Pin.CSS 0, Event.spiByte 0x10] ++
      (List.replicate 1600 ((List.replicate 300 (((3 : Nat) <<< 4) ||| 3)).map Event.spiByte)).flatten ++
      [Event.digitalWrite Pin.CSM 1, Event.digitalWrite Pin.CSS 1] ++
      EPD_13IN3E_RefreshNow :=
  ⟨by decide, c6_clear_trace 3 (by decide)⟩

/-! ## Full-frame streaming (claim C4) -/

/-- A join of lists of constant length has length `count * c`. -/
theorem join_length_const {α : Type} (c : Nat) (l : List (List α))
    (h : ∀ x ∈ l, x.length = c) : l.flatten.length = l.length * c := by
  induction l with
  | nil => simp
  | cons x xs ih =>
    have hx : x.length = c := h x (by simp)
    have hxs : ∀ y ∈ xs, y.length = c := fun y hy => h y (by simp [hy])
    simp [ih hxs, hx, Nat.succ_mul, Nat.add_comm]

/-- Source `WriteLineM` forwards a 300-byte line verbatim. -/
theorem writeLineM_forwards (b : List Nat) (hb : b.length = 300) :
    EPD_13IN3E_WriteLineM (some b) = b.map Event.spiByte := by
  show EPD_13IN3E_SendData2 (some b) 300 = b.map Event.spiByte
  simp [EPD_13IN3E_SendData2, DEV_SPI_Write_nByte, List.take_of_length_le, hb.le]

/-- Source `WriteLineS` forwards a 300-byte line verbatim. -/
theorem writeLineS_forwards (b : List Nat) (hb : b.length = 300) :
    EPD_13IN3E_WriteLineS (some b) = b.map Event.spiByte := by
  show EPD_13IN3E_SendData2 (some b) 300 = b.map Event.spiByte
  simp [EPD_13IN3E_SendData2, DEV_SPI_Write_nByte, List.take_of_length_le, hb.le]

/-- C4: for every sequence of exactly 1600 `WriteLineM` calls between one
`BeginFrameM`/`EndFrameM` pair, each with a non-null 300-byte line buffer,
every call forwards its 300 bytes verbatim and the joined data stream for
that controller is exactly 1600 × 300 = 480000 SPI data bytes, framed by
the DTM (0x10) command under the Master select and the final deselect;
the same holds for `WriteLineS` between `BeginFrameS`/`EndFrameS`. -/
theorem c4_frame_stream (bufsM bufsS : List (List Nat))
    (hMn : bufsM.length = 1600) (hMl : ∀ b ∈ bufsM, b.length = 300)
    (hSn : bufsS.length = 1600) (hSl : ∀ b ∈ bufsS, b.length = 300) :
    (∀ b ∈ bufsM, EPD_13IN3E_WriteLineM (some b) = b.map Event.spiByte) ∧
    ((bufsM.map fun b => EPD_13IN3E_WriteLineM (some b)).flatten).length = 480000 ∧
    (∀ b ∈ bufsS, EPD_13IN3E_WriteLineS (some b) = b.map Event.spiByte) ∧
    ((bufsS.map fun b => EPD_13IN3E_WriteLineS (some b)).flatten).length = 480000 ∧
    EPD_13IN3E_BeginFrameM ++ (bufsM.map fun b => EPD_13IN3E_WriteLineM (some b)).flatten ++
        EPD_13IN3E_EndFrameM =
      [Event.digitalWrite Pin.CSM 0, Event.spiByte 0x10] ++
        (bufsM.map fun b => b.map Event.spiByte).flatten ++
        [Event.digitalWrite Pin.CSM 1, Event.digitalWrite Pin.CSS 1] ∧
    EPD_13IN3E_BeginFrameS ++ (bufsS.map fun b => EPD_13IN3E_WriteLineS (some b)).flatten ++
        EPD_13IN3E_EndFrameS =
      [Event.digitalWrite Pin.CSM 1, Event.digitalWrite Pin.CSS 1,
       Event.digitalWrite Pin.CSS 0, Event.spiByte 0x10] ++
        (bufsS.map fun b => b.map Event.spiByte).flatten ++
        [Event.digitalWrite Pin.CSM 1, Event.digitalWrite Pin.CSS 1] := by
  have hMf : ∀ b ∈ bufsM, EPD_13IN3E_WriteLineM (some b) = b.map Event.spiByte :=
    fun b hb => writeLineM_forwards b (hMl b hb)
  have hSf : ∀ b ∈ bufsS, EPD_13IN3E_WriteLineS (some b) = b.map Event.spiByte :=
    fun b hb => writeLineS_forwards b (hSl b hb)
  have hMlen : ((bufsM.map fun b => EPD_13IN3E_WriteLineM (some b)).flatten).length = 480000 := by
    rw [join_length_const 300]
    · simp [hMn]
    · intro x hx
      rcases List.mem_map.mp hx with ⟨b, hb, rfl⟩
      rw [hMf b hb, List.length_map, hMl b hb]
  have hSlen : ((bufsS.map fun b => EPD_13IN3E_WriteLineS (some b)).flatten).length = 480000 := by
    rw [join_length_const 300]
    · simp [hSn]
    · intro x hx
      rcases List.mem_map.mp hx with ⟨b, hb, rfl⟩
      rw [hSf b hb, List.length_map, hSl b hb]
  have hMmap : (bufsM.map fun b => EPD_13IN3E_WriteLineM (some b)) =
      bufsM.map fun b => b.map Event.spiByte := List.map_congr_left hMf
  have hSmap : (bufsS.map fun b => EPD_13IN3E_WriteLineS (some b)) =
      bufsS.map fun b => b.map Event.spiByte := List.map_congr_left hSf
  refine ⟨hMf, hMlen, hSf, hSlen, ?_, ?_⟩
  · rw [hMmap]; rfl
  · rw [hSmap]; rfl

/-- Witness for C4 at 1600 concrete all-zero 300-byte lines per controller. -/
theorem c4_frame_stream_witness :
    (List.replicate 1600 (List.replicate 300 (0 : Nat))).length = 1600 ∧
    (((List.replicate 1600 (List.replicate 300 (0 : Nat))).map
        fun b => EPD_13IN3E_WriteLineM (some b)).flatten).length = 480000 ∧
    (((List.replicate 1600 (List.replicate 300 (0 : Nat))).map
        fun b => EPD_13IN3E_WriteLineS (some b)).flatten).length = 480000 := by
  have h1 : (List.replicate 1600 (List.replicate 300 (0 : Nat))).length = 1600 := by rw [List.length_replicate]
  have h2 : ∀ b ∈ List.replicate 1600 (List.replicate 300 (0 : Nat)), b.length = 300 := by
    intro b hb
    rw [List.eq_of_mem_replicate hb, List.length_replicate]
  have h := c4_frame_stream _ _ h1 h2 h1 h2
  exact ⟨h1, h.2.1, h.2.2.2.1⟩

/-! ## The updateDisplay routine of the sketch (claim C5)

`updateDisplay` in `esp32-eink-spectra6-display.ino` performs the HTTP GET
and then streams the body into the two controllers line by line.  The HTTP
layer is abstracted into the `response_code` argument and the response
body into the `stream` byte list; `stream->readBytes(buf, 300)` reading a
truncated body returns the bytes still available, modelled by `List.take`.
The embedding is structurally recursive, hence total: "does not hang" on a
short read holds by construction (the unbounded busy poll is reached only
on the success path, inside `RefreshNow`). -/

def BYTES_PER_LINE_HALF : Nat := 1200 / 4

/-- One half-frame write loop of `updateDisplay` (`for y < EPD_HEIGHT`):
reads a 300-byte line, breaks on a short read, otherwise forwards the line
through the given `WriteLine` function and counts the bytes; returns the
emitted events, the byte counter and the remaining stream. -/
def readHalf (wl : Option (List Nat) → List Event) :
    List Nat → Nat → List Event × Nat × List Nat
  | stream, 0 => ([], 0, stream)
  | stream, n + 1 =>
    let chunk := stream.take BYTES_PER_LINE_HALF
    if chunk.length = BYTES_PER_LINE_HALF then
      let rest := readHalf wl (stream.drop BYTES_PER_LINE_HALF) n
      (wl (some chunk) ++ rest.1, BYTES_PER_LINE_HALF + rest.2.1, rest.2.2)
    else
      ([], 0, stream.drop BYTES_PER_LINE_HALF)

theorem readHalf_zero (wl : Option (List Nat) → List Event) (stream : List Nat) :
    readHalf wl stream 0 = ([], 0, stream) := rfl

theorem readHalf_succ (wl : Option (List Nat) → List Event) (stream : List Nat) (n : Nat) :
    readHalf wl stream (n + 1) =
      if (stream.take BYTES_PER_LINE_HALF).length = BYTES_PER_LINE_HALF then
        (wl (some (stream.take BYTES_PER_LINE_HALF)) ++
            (readHalf wl (stream.drop BYTES_PER_LINE_HALF) n).1,
         BYTES_PER_LINE_HALF + (readHalf wl (stream.drop BYTES_PER_LINE_HALF) n).2.1,
         (readHalf wl (stream.drop BYTES_PER_LINE_HALF) n).2.2)
      else ([], 0, stream.drop BYTES_PER_LINE_HALF) := rfl

/-- Source `updateDisplay()`: on HTTP success, powers on and initializes the
panel, streams the Master half then the Slave half, always closes both
frames, and refreshes plus powers off only when both halves transferred
the full `EPD_HEIGHT * BYTES_PER_LINE_HALF` bytes; returns `false`
otherwise. -/
def updateDisplay (response_code : Nat) (stream : List Nat) : Bool × List Event :=
  if response_code ≠ 200 then (false, [])
  else
    let m := readHalf EPD_13IN3E_WriteLineM stream EPD_13IN3E_HEIGHT
    let s := readHalf EPD_13IN3E_WriteLineS m.2.2 EPD_13IN3E_HEIGHT
    let base := EPD_13IN3E_PowerOn ++ EPD_13IN3E_Init ++
      EPD_13IN3E_BeginFrameM ++ m.1 ++ EPD_13IN3E_EndFrameM ++
      EPD_13IN3E_BeginFrameS ++ s.1 ++ EPD_13IN3E_EndFrameS
    let expected := EPD_13IN3E_HEIGHT * BYTES_PER_LINE_HALF
    if m.2.1 = expected ∧ s.2.1 = expected then
      (true, base ++ EPD_13IN3E_RefreshNow ++ EPD_13IN3E_PowerOff)
    else
      (false, base)

/-- A half-frame loop over a stream that truncates inside line `k` stops
after the `k` complete lines, counts `300 * k` bytes and consumes the
stream. -/
theorem readHalf_short (wl : Option (List Nat) → List Event) :
    ∀ (k fuel : Nat) (stream : List Nat) (r : Nat), r < 300 → k < fuel →
      stream.length = 300 * k + r →
      readHalf wl stream fuel =
        (((List.range k).map fun i => wl (some ((stream.drop (300 * i)).take 300))).flatten,
         300 * k, []) := by
  intro k
  induction k with
  | zero =>
    intro fuel stream r hr hk hlen
    match fuel, hk with
    | f + 1, _ =>
      rw [readHalf_succ]
      have hB : BYTES_PER_LINE_HALF = 300 := rfl
      rw [if_neg]
      · have hnil : stream.drop BYTES_PER_LINE_HALF = [] := by
          apply List.drop_eq_nil_of_le
          rw [hB]
          omega
        rw [hnil]
        simp
      · rw [hB, List.length_take]
        omega
  | succ k ih =>
    intro fuel stream r hr hk hlen
    match fuel, hk with
    | f + 1, hk =>
      have hB : BYTES_PER_LINE_HALF = 300 := rfl
      have hk2 : k < f := by omega
      have hdlen : (stream.drop 300).length = 300 * k + r := by
        rw [List.length_drop, hlen]
        ring_nf
        omega
      have hrest := ih f (stream.drop 300) r hr hk2 hdlen
      rw [readHalf_succ, if_pos]
      · rw [hB, hrest]
        refine Prod.ext ?_ (Prod.ext ?_ rfl)
        · show wl (some (stream.take 300)) ++
              ((List.range k).map fun i =>
                wl (some (((stream.drop 300).drop (300 * i)).take 300))).flatten =
            ((List.range (k + 1)).map fun i =>
              wl (some ((stream.drop (300 * i)).take 300))).flatten
          rw [List.range_succ_eq_map, List.map_cons, List.flatten_cons, List.map_map]
          have h0 : stream.drop (300 * 0) = stream := by simp
          have hmap : ((List.range k).map fun i =>
                wl (some (((stream.drop 300).drop (300 * i)).take 300))) =
              (List.range k).map
                ((fun i => wl (some ((stream.drop (300 * i)).take 300))) ∘ Nat.succ) := by
            apply List.map_congr_left
            intro i _
            have hdd : (stream.drop 300).drop (300 * i) = stream.drop (300 * Nat.succ i) := by
              rw [List.drop_drop]
              congr 1
              omega
            simp [hdd]
          rw [hmap, h0]
        · show 300 + 300 * k = 300 * (k + 1)
          omega
      · rw [hB, List.length_take]
        omega

/-- A half-frame loop over a stream holding at least `300 * fuel` bytes
writes all `fuel` lines, counts `300 * fuel` bytes and leaves the rest. -/
theorem readHalf_full (wl : Option (List Nat) → List Event) :
    ∀ (fuel : Nat) (stream : List Nat), 300 * fuel ≤ stream.length →
      readHalf wl stream fuel =
        (((List.range fuel).map fun i => wl (some ((stream.drop (300 * i)).take 300))).flatten,
         300 * fuel, stream.drop (300 * fuel)) := by
  intro fuel
  induction fuel with
  | zero =>
    intro stream _
    simp [readHalf_zero]
  | succ f ih =>
    intro stream hlen
    have hB : BYTES_PER_LINE_HALF = 300 := rfl
    have hdlen : 300 * f ≤ (stream.drop 300).length := by
      rw [List.length_drop]
      omega
    have hrest := ih (stream.drop 300) hdlen
    rw [readHalf_succ, if_pos]
    · rw [hB, hrest]
      refine Prod.ext ?_ (Prod.ext ?_ ?_)
      · show wl (some (stream.take 300)) ++
            ((List.range f).map fun i =>
              wl (some (((stream.drop 300).drop (300 * i)).take 300))).flatten =
          ((List.range (f + 1)).map fun i =>
            wl (some ((stream.drop (300 * i)).take 300))).flatten
        rw [List.range_succ_eq_map, List.map_cons, List.flatten_cons, List.map_map]
        have h0 : stream.drop (300 * 0) = stream := by simp
        have hmap : ((List.range f).map fun i =>
              wl (some (((stream.drop 300).drop (300 * i)).take 300))) =
            (List.range f).map
              ((fun i => wl (some ((stream.drop (300 * i)).take 300))) ∘ Nat.succ) := by
          apply List.map_congr_left
          intro i _
          have hdd : (stream.drop 300).drop (300 * i) = stream.drop (300 * Nat.succ i) := by
            rw [List.drop_drop]
            congr 1
            omega
          simp [hdd]
        rw [hmap, h0]
      · show 300 + 300 * f = 300 * (f + 1)
        omega
      · show (stream.drop 300).drop (300 * f) = stream.drop (300 * (f + 1))
        rw [List.drop_drop]
        congr 1
        omega
    · rw [hB, List.length_take]
      omega

/-- Source `updateDisplay` on HTTP 200, unfolded. -/
theorem updateDisplay_ok (stream : List Nat) :
    updateDisplay 200 stream =
      if (readHalf EPD_13IN3E_WriteLineM stream 1600).2.1 = 480000 ∧
          (readHalf EPD_13IN3E_WriteLineS
            (readHalf EPD_13IN3E_WriteLineM stream 1600).2.2 1600).2.1 = 480000 then
        (true,
         EPD_13IN3E_PowerOn ++ EPD_13IN3E_Init ++
           EPD_13IN3E_BeginFrameM ++ (readHalf EPD_13IN3E_WriteLineM stream 1600).1 ++
           EPD_13IN3E_EndFrameM ++
           EPD_13IN3E_BeginFrameS ++
           (readHalf EPD_13IN3E_WriteLineS
             (readHalf EPD_13IN3E_WriteLineM stream 1600).2.2 1600).1 ++
           EPD_13IN3E_EndFrameS ++
           EPD_13IN3E_RefreshNow ++ EPD_13IN3E_PowerOff)
      else
        (false,
         EPD_13IN3E_PowerOn ++ EPD_13IN3E_Init ++
           EPD_13IN3E_BeginFrameM ++ (readHalf EPD_13IN3E_WriteLineM stream 1600).1 ++
           EPD_13IN3E_EndFrameM ++
           EPD_13IN3E_BeginFrameS ++
           (readHalf EPD_13IN3E_WriteLineS
             (readHalf EPD_13IN3E_WriteLineM stream 1600).2.2 1600).1 ++
           EPD_13IN3E_EndFrameS) := rfl

set_option maxRecDepth 4000 in
/-- C5: if the line source truncates inside line `k < 1600` of a half-frame
(stream shorter than the `1600 × 300` bytes of that half), the write loop of
that half stops after its `k` complete lines with no further `WriteLine`
forwarding, the matching `EndFrame` (chip-select deassert) is still
emitted, no refresh sequence is appended, and `updateDisplay` reports
failure (`false`).  The first conjunct covers truncation in the Master
half, the second in the Slave half.  The embedding is structurally
recursive, so the failing run also terminates (no hang). -/
theorem c5_updateDisplay_short (stream : List Nat) (k r : Nat)
    (hk : k < 1600) (hr : r < 300) :
    (stream.length = 300 * k + r →
      updateDisplay 200 stream =
        (false,
         EPD_13IN3E_PowerOn ++ EPD_13IN3E_Init ++
           EPD_13IN3E_BeginFrameM ++
           ((List.range k).map fun i =>
             ((stream.drop (300 * i)).take 300).map Event.spiByte).flatten ++
           EPD_13IN3E_EndFrameM ++ EPD_13IN3E_BeginFrameS ++ EPD_13IN3E_EndFrameS)) ∧
    (stream.length = 480000 + (300 * k + r) →
      updateDisplay 200 stream =
        (false,
         EPD_13IN3E_PowerOn ++ EPD_13IN3E_Init ++
           EPD_13IN3E_BeginFrameM ++
           ((List.range 1600).map fun i =>
             ((stream.drop (300 * i)).take 300).map Event.spiByte).flatten ++
           EPD_13IN3E_EndFrameM ++ EPD_13IN3E_BeginFrameS ++
           ((List.range k).map fun i =>
             (((stream.drop 480000).drop (300 * i)).take 300).map Event.spiByte).flatten ++
           EPD_13IN3E_EndFrameS)) := by
  constructor
  · intro hlen
    have hm := readHalf_short EPD_13IN3E_WriteLineM k 1600 stream r hr hk hlen
    have hs : readHalf EPD_13IN3E_WriteLineS [] 1600 = ([], 0, []) := by
      simpa using readHalf_short EPD_13IN3E_WriteLineS 0 1600 [] 0 (by omega) (by omega) rfl
    have hmono : ∀ i ∈ List.range k,
        EPD_13IN3E_WriteLineM (some ((stream.drop (300 * i)).take 300)) =
          ((stream.drop (300 * i)).take 300).map Event.spiByte := by
      intro i hi
      have hik : i < k := List.mem_range.mp hi
      apply writeLineM_forwards
      rw [List.length_take, List.length_drop, hlen]
      omega
    rw [updateDisplay_ok]
    simp only [hm, hs]
    rw [if_neg (by omega)]
    rw [List.map_congr_left hmono]
    simp [List.append_nil]
  · intro hlen
    have hm := readHalf_full EPD_13IN3E_WriteLineM 1600 stream (by omega)
    have hslen : (stream.drop (300 * 1600)).length = 300 * k + r := by
      rw [List.length_drop, hlen]
      omega
    have hs := readHalf_short EPD_13IN3E_WriteLineS k 1600 (stream.drop (300 * 1600)) r hr hk hslen
    have hmonoM : ∀ i ∈ List.range 1600,
        EPD_13IN3E_WriteLineM (some ((stream.drop (300 * i)).take 300)) =
          ((stream.drop (300 * i)).take 300).map Event.spiByte := by
      intro i hi
      have hik : i < 1600 := List.mem_range.mp hi
      apply writeLineM_forwards
      rw [List.length_take, List.length_drop, hlen]
      omega
    have hmonoS : ∀ i ∈ List.range k,
        EPD_13IN3E_WriteLineS (some (((stream.drop (300 * 1600)).drop (300 * i)).take 300)) =
          (((stream.drop (300 * 1600)).drop (300 * i)).take 300).map Event.spiByte := by
      intro i hi
      have hik : i < k := List.mem_range.mp hi
      apply writeLineS_forwards
      rw [List.length_take, List.length_drop, List.length_drop, hlen]
      omega
    rw [updateDisplay_ok]
    simp only [hm, hs]
    rw [if_neg (by omega)]
    rw [List.map_congr_left hmonoM, List.map_congr_left hmonoS]

/-- Witness for C5: a stream of 450 bytes truncates the Master half inside
line 1; the update reports failure after one written line. -/
theorem c5_updateDisplay_short_witness :
    (List.replicate 450 (0 : Nat)).length = 300 * 1 + 150 ∧
    updateDisplay 200 (List.replicate 450 (0 : Nat)) =
      (false,
       EPD_13IN3E_PowerOn ++ EPD_13IN3E_Init ++
         EPD_13IN3E_BeginFrameM ++
         ((List.range 1).map fun i =>
           (((List.replicate 450 (0 : Nat)).drop (300 * i)).take 300).map Event.spiByte).flatten ++
         EPD_13IN3E_EndFrameM ++ EPD_13IN3E_BeginFrameS ++ EPD_13IN3E_EndFrameS) := by
  have hlen : (List.replicate 450 (0 : Nat)).length = 300 * 1 + 150 := by
    rw [List.length_replicate]
  exact ⟨hlen,
    (c5_updateDisplay_short (List.replicate 450 0) 1 150 (by omega) (by omega)).1 hlen⟩

/-! ## The blocking busy poll (claim C9)

`EPD_13IN3E_ReadBusyH` is `while (!DEV_Digital_Read(EPD_BUSY_PIN)) {
DEV_Delay_ms(10); esp_task_wdt_reset(); }` followed by `DEV_Delay_ms(20)`.
The busy input is an environment: `busy j` is the level returned by the
`j`-th poll.  The C loop has no bound, so the embedding is fueled: `none`
means the loop has not exited within the given number of polls — returning
`none` for every fuel is the shallow rendering of non-termination. -/

/-- The busy-wait loop polling from index `j`: on a high read it performs
the trailing 20 ms delay and reports the next poll index; on a low read it
delays 10 ms (watchdog reset unrecorded) and polls again. -/
def readBusyHFrom (busy : Nat → Bool) (j : Nat) : Nat → Option (List Event × Nat)
  | 0 => none
  | fuel + 1 =>
    if busy j then some ([Event.delayMs 20], j + 1)
    else
      match readBusyHFrom busy (j + 1) fuel with
      | none => none
      | some (tr, next) => some (Event.delayMs 10 :: tr, next)

/-- Source `EPD_13IN3E_RefreshNow` with its two busy waits resolved against the
busy input: the PON block, the first wait, the DRF block, the second wait,
the POF block; `none` when either wait never sees the busy input high
within the fuel. -/
def EPD_13IN3E_RefreshNowB (busy : Nat → Bool) (fuel : Nat) : Option (List Event) :=
  match readBusyHFrom busy 0 fuel with
  | none => none
  | some (t1, k1) =>
    match readBusyHFrom busy k1 fuel with
    | none => none
    | some (t2, _) =>
      some (EPD_13IN3E_CS_ALL 0 ++ EPD_13IN3E_SendCommand 0x04 ++ EPD_13IN3E_CS_ALL 1 ++
        t1 ++ [Event.delayMs 50] ++
        EPD_13IN3E_CS_ALL 0 ++ EPD_13IN3E_SPI_Sand DRF DRF_V ++ EPD_13IN3E_CS_ALL 1 ++
        t2 ++
        EPD_13IN3E_CS_ALL 0 ++ EPD_13IN3E_SPI_Sand POF POF_V ++ EPD_13IN3E_CS_ALL 1)

/-- The poll loop can only exit after a poll read the busy input high. -/
theorem readBusyHFrom_some_implies_high (busy : Nat → Bool) :
    ∀ (fuel j : Nat) (res : List Event × Nat),
      readBusyHFrom busy j fuel = some res → ∃ m, busy m = true := by
  intro fuel
  induction fuel with
  | zero => intro j res h; simp [readBusyHFrom] at h
  | succ f ih =>
    intro j res h
    by_cases hb : busy j
    · exact ⟨j, hb⟩
    · rw [readBusyHFrom, if_neg hb] at h
      cases hrec : readBusyHFrom busy (j + 1) f with
      | none => rw [hrec] at h; simp at h
      | some p => exact ih (j + 1) p hrec

/-- A busy input that never reads high keeps the loop spinning: no amount
of fuel makes it return. -/
theorem readBusyHFrom_stuck (busy : Nat → Bool) (hlow : ∀ m, busy m = false) :
    ∀ (fuel j : Nat), readBusyHFrom busy j fuel = none := by
  intro fuel
  induction fuel with
  | zero => intro j; rfl
  | succ f ih =>
    intro j
    rw [readBusyHFrom, if_neg (by simp [hlow j]), ih (j + 1)]

/-- If some poll at or after the start index reads high, enough fuel makes
the loop return. -/
theorem readBusyHFrom_terminates (busy : Nat → Bool) :
    ∀ (d j : Nat), busy (j + d) = true →
      ∀ fuel, d < fuel → ∃ res, readBusyHFrom busy j fuel = some res := by
  intro d
  induction d with
  | zero =>
    intro j hj fuel hfuel
    match fuel, hfuel with
    | f + 1, _ =>
      refine ⟨([Event.delayMs 20], j + 1), ?_⟩
      rw [readBusyHFrom, if_pos (by simpa using hj)]
  | succ d ih =>
    intro j hj fuel hfuel
    match fuel, hfuel with
    | f + 1, hfuel =>
      by_cases hb : busy j
      · exact ⟨([Event.delayMs 20], j + 1), by rw [readBusyHFrom, if_pos hb]⟩
      · have hj2 : busy ((j + 1) + d) = true := by
          have : (j + 1) + d = j + (d + 1) := by omega
          rw [this]
          exact hj
        obtain ⟨res, hres⟩ := ih (j + 1) hj2 f (by omega)
        refine ⟨(Event.delayMs 10 :: res.1, res.2), ?_⟩
        rw [readBusyHFrom, if_neg hb, hres]

/-- C9: the busy wait returns only after the busy input has read high; it
polls without bound, so against a busy input that never reads high neither
`ReadBusyH` nor `RefreshNow` (which blocks on it) ever returns — for every
fuel the fueled embedding yields `none` — and the wait is total exactly
under the hypothesis that some poll reads high. -/
theorem c9_readBusyH_blocking :
    (∀ (busy : Nat → Bool) (fuel : Nat) (res : List Event × Nat),
      readBusyHFrom busy 0 fuel = some res → ∃ m, busy m = true) ∧
    (∀ busy : Nat → Bool, (∀ m, busy m = false) →
      ∀ fuel, readBusyHFrom busy 0 fuel = none) ∧
    (∀ (busy : Nat → Bool) (m : Nat), busy m = true →
      ∀ fuel, m < fuel → ∃ res, readBusyHFrom busy 0 fuel = some res) ∧
    (∀ busy : Nat → Bool, (∀ m, busy m = false) →
      ∀ fuel, EPD_13IN3E_RefreshNowB busy fuel = none) := by
  refine ⟨?_, ?_, ?_, ?_⟩
  · intro busy fuel res h
    exact readBusyHFrom_some_implies_high busy fuel 0 res h
  · intro busy hlow fuel
    exact readBusyHFrom_stuck busy hlow fuel 0
  · intro busy m hm fuel hfuel
    exact readBusyHFrom_terminates busy m 0 (by simpa using hm) fuel hfuel
  · intro busy hlow fuel
    rw [EPD_13IN3E_RefreshNowB, readBusyHFrom_stuck busy hlow fuel 0]

/-- Witness for C9: a constantly low busy input starves the wait and the
refresh for any concrete fuel, while a high input returns at once. -/
theorem c9_readBusyH_blocking_witness :
    readBusyHFrom (fun _ => false) 0 7 = none ∧
    EPD_13IN3E_RefreshNowB (fun _ => false) 7 = none ∧
    (∃ res, readBusyHFrom (fun _ => true) 0 3 = some res) :=
  ⟨c9_readBusyH_blocking.2.1 (fun _ => false) (fun _ => rfl) 7,
   c9_readBusyH_blocking.2.2.2 (fun _ => false) (fun _ => rfl) 7,
   c9_readBusyH_blocking.2.2.1 (fun _ => true) 0 rfl 3 (by omega)⟩

/-! ## Hash-token polling (claim C10)

`checkForNewImage` in the sketch polls `/api/image/info`, parses the
`hash` field out of the JSON body and compares it with the 33-byte global
`last_image_hash`.  The HTTP GET and `parseJsonValue` are abstracted into
the inputs `response_code` and `current_hash` (the parsed hash bytes, as
`strcmp` sees them); the stored token is threaded explicitly instead of
the C global. -/

/-- Lines 217-246 of the sketch: on HTTP 200 with a non-empty parsed hash,
an unchanged hash reports no update; a changed hash is copied into the
stored token (`strncpy` bounded to 32 bytes) before the function returns
`true`.  Every other path leaves the token unchanged and reports `false`.
Returns (new-image flag, stored token after the call). -/
def checkForNewImage (stored : List Nat) (response_code : Nat) (current_hash : List Nat) :
    Bool × List Nat :=
  if response_code = 200 then
    if current_hash.length > 0 then
      if current_hash = stored then (false, stored)
      else (true, current_hash.take 32)
    else (false, stored)
  else (false, stored)

/-- One `loop()` polling iteration (lines 465-472): `updateDisplay` runs
only when `checkForNewImage` returned `true`; its success or failure
(`upd_ok`, abstracting the HTTP/stream outcome) influences nothing but the
log.  Returns (stored token after the iteration, whether a display update
was attempted, whether the iteration ended without a failed update). -/
def loopStep (stored : List Nat) (response_code : Nat) (current_hash : List Nat)
    (upd_ok : Bool) : List Nat × Bool × Bool :=
  let r := checkForNewImage stored response_code current_hash
  if r.1 then (r.2, true, upd_ok) else (r.2, false, true)

/-- C10: when a changed server hash (non-empty, at most 32 bytes, differing
from the stored token) is detected, `checkForNewImage` overwrites the
stored token with the server hash at that moment — before `updateDisplay`
fetches or renders anything — so after an iteration whose display update
failed (`upd_ok = false`) the token already equals the server hash, and
the next poll with the unchanged server hash reports "no update" and
attempts nothing: the failed image is not retried. -/
theorem c10_hash_not_retried (stored h : List Nat)
    (hne : h ≠ stored) (hpos : 0 < h.length) (h32 : h.length ≤ 32) :
    checkForNewImage stored 200 h = (true, h) ∧
    (∀ upd_ok : Bool, loopStep stored 200 h upd_ok = (h, true, upd_ok)) ∧
    loopStep h 200 h true = (h, false, true) ∧
    loopStep h 200 h false = (h, false, true) := by
  have htake : h.take 32 = h := List.take_of_length_le h32
  have hcheck : checkForNewImage stored 200 h = (true, h) := by
    rw [checkForNewImage, if_pos rfl, if_pos hpos, if_neg hne, htake]
  have hsame : checkForNewImage h 200 h = (false, h) := by
    rw [checkForNewImage, if_pos rfl, if_pos hpos, if_pos rfl]
  refine ⟨hcheck, ?_, ?_, ?_⟩
  · intro upd_ok
    rw [loopStep]
    simp [hcheck]
  · rw [loopStep]
    simp [hsame]
  · rw [loopStep]
    simp [hsame]

/-- Witness for C10 with stored token empty and server hash `[97]`. -/
theorem c10_hash_not_retried_witness :
    checkForNewImage [] 200 [97] = (true, [97]) ∧
    loopStep [] 200 [97] false = ([97], true, false) ∧
    loopStep [97] 200 [97] false = ([97], false, true) := by
  have h := c10_hash_not_retried [] [97] (by decide) (by decide) (by decide)
  exact ⟨h.1, h.2.1 false, h.2.2.2⟩
